import Mathlib

/-
Shallow embedding of `src/tools/nRF51_codegen.py`.

The script builds a 32-entry interrupt table (a Python list of strings,
initialised to empty strings) from the peripherals of an SVD device
description, then renders two C preprocessor macros into a fixed header
path.  Python semantics that matter here and are modelled explicitly:

* list indexing `xs[i]` accepts negative indices (`xs[i]` is `xs[len+i]`
  for `-len <= i < 0`) and raises `IndexError` outside `[-len, len)`;
* `if s:` on a string tests non-emptiness;
* `assert` raises `AssertionError` when the condition is false.

Failures are modelled with `Except PyError`; the write to the output file
is modelled as the pair (path, list of output lines) that a successful
run produces, since `main` opens the file only after
`get_peripheral_interrupts` has returned.
-/

namespace NRF51Codegen

/-- One interrupt entry of a peripheral, as exposed by the SVD parser:
`value` is the interrupt number (a Python int, hence `Int`), `name` its
handler name. -/
structure Interrupt where
  value : Int
  name : String
  deriving DecidableEq, Repr

/-- A peripheral of the device: its name and its declared interrupt
entries, in declaration order. -/
structure Peripheral where
  name : String
  interrupts : List Interrupt
  deriving DecidableEq, Repr

/-- The parsed device description: its peripherals in order. -/
structure Device where
  peripherals : List Peripheral
  deriving DecidableEq, Repr

/-- The two Python exceptions the script can raise while building the
table: `IndexError` from list indexing, `AssertionError` from `assert`. -/
inductive PyError where
  | indexError
  | assertionError
  deriving DecidableEq, Repr

/-- Python list-index resolution: for a list of length `len`, index `i`
resolves to `i` when `0 ≤ i < len`, to `len + i` when `-len ≤ i < 0`,
and is out of range otherwise. -/
def pyIndex (len : Nat) (i : Int) : Option Nat :=
  if 0 ≤ i ∧ i < (len : Int) then some i.toNat
  else if -(len : Int) ≤ i ∧ i < 0 then some ((len : Int) + i).toNat
  else none

/-- Python list read `xs[i]`: `IndexError` when the index is out of
range. -/
def pyGet (xs : List String) (i : Int) : Except PyError String :=
  match pyIndex xs.length i with
  | some j => .ok (xs.getD j "")
  | none => .error .indexError

/-- Python list write `xs[i] = v`: `IndexError` when the index is out of
range. -/
def pySet (xs : List String) (i : Int) (v : String) : Except PyError (List String) :=
  match pyIndex xs.length i with
  | some j => .ok (xs.set j v)
  | none => .error .indexError

/-- The body of the inner loop of `get_peripheral_interrupts`:

    if interrupts[intr.value]:
        assert interrupts[intr.value] == intr.name
    else:
        interrupts[intr.value] = intr.name

The read happens first (and can raise `IndexError`); a non-empty current
entry triggers the equality assertion; an empty one is overwritten. -/
def processIntr (acc : List String) (intr : Interrupt) : Except PyError (List String) :=
  match pyGet acc intr.value with
  | .error e => .error e
  | .ok cur =>
    if cur ≠ "" then
      if cur = intr.name then .ok acc else .error .assertionError
    else
      pySet acc intr.value intr.name

/-- `get_peripheral_interrupts`: start from 32 empty slots (`[""] * 32`)
and process every interrupt entry of every peripheral in order. -/
def get_peripheral_interrupts (device : Device) : Except PyError (List String) :=
  device.peripherals.foldlM (fun acc p => p.interrupts.foldlM processIntr acc)
    (List.replicate 32 "")

/-- All interrupt entries of the device in processing order. -/
def allEntries (device : Device) : List Interrupt :=
  device.peripherals.flatMap Peripheral.interrupts

/-- `"\t" * indent` of Python. -/
def tabs (indent : Nat) : String :=
  String.join (List.replicate indent "\t")

/-- `dump_as_c_macro_lines(name, lines, outfile, indent)`: the list of lines
printed — the `#define` header, then each line prefixed by the
indentation and suffixed by a line continuation on all but the last. -/
def dump_as_c_macro_lines (name : String) (lines : List String) (indent : Nat) : List String :=
  ("#define " ++ name ++ " \\") ::
    lines.enum.map (fun p =>
      let line := tabs indent ++ p.2
      if p.1 < lines.length - 1 then line ++ " \\" else line)

/-- The vector-table line for one slot.  Python tests `if name:`, i.e.
name non-empty. -/
def vectorLine (name : String) : String :=
  if name = "" then "0, /* Reserved */" else name ++ "_Handler,"

/-- The first `lines` list of `dump_macros`: one vector-table entry per
slot, in slot order. -/
def vectorLines (interrupts : List String) : List String :=
  interrupts.map vectorLine

/-- The weak-alias declaration emitted for a non-empty slot, exactly as
the two concatenated Python string literals produce it. -/
def aliasLine (name : String) : String :=
  "void " ++ name ++ "_Handler(void) __attribute__ " ++ "((weak, alias(\"Dummy_Handler\")));"

/-- The second `lines` list of `dump_macros`: empty slots are skipped
(`continue`), non-empty ones yield their weak-alias declaration. -/
def handlerLines (interrupts : List String) : List String :=
  interrupts.filterMap (fun name => if name = "" then none else some (aliasLine name))

/-- The generated-file marker printed first by `dump_macros`. -/
def commentLine : String :=
  "/* Automatically generated by nRF51_codegen.py */"

/-- `dump_macros(interrupts, outfile)`: every line printed to the output
file, in order. -/
def dump_macros (interrupts : List String) : List String :=
  commentLine ::
    (dump_as_c_macro_lines "PERIPHERAL_INTERRUPT_VECTORS" (vectorLines interrupts) 1 ++
      dump_as_c_macro_lines "PERIPHERAL_INTERRUPT_HANDLERS" (handlerLines interrupts) 0)

/-- The fixed output path opened by `main`. -/
def outputPath : String :=
  "src/chips/nrf51822/peripheral_interrupts.h"

/-- `main()`: build the table, then open the fixed path and dump the
macros.  The file is opened only after `get_peripheral_interrupts`
returns, so a failing build produces no output at all. -/
def main (device : Device) : Except PyError (String × List String) :=
  match get_peripheral_interrupts device with
  | .error e => .error e
  | .ok interrupts => .ok (outputPath, dump_macros interrupts)

/-- The scenario device of the spec: interrupts `0 ↦ POWER_CLOCK` and
`1 ↦ RADIO`, the other 30 slots undeclared. -/
def demoDevice : Device :=
  ⟨[⟨"CLOCK", [⟨0, "POWER_CLOCK"⟩]⟩, ⟨"RADIO", [⟨1, "RADIO"⟩]⟩]⟩

/-- The interrupt table the scenario device produces. -/
def demoTable : List String :=
  "POWER_CLOCK" :: "RADIO" :: List.replicate 30 ""

/-- A device whose two peripherals claim interrupt 0 with different
names. -/
def conflictDevice : Device :=
  ⟨[⟨"P", [⟨0, "A"⟩]⟩, ⟨"Q", [⟨0, "B"⟩]⟩]⟩

/-- A device with a single interrupt entry carrying the negative
number `-1`. -/
def negDevice : Device :=
  ⟨[⟨"P", [⟨-1, "X"⟩]⟩]⟩

/-
Helper lemmas about the embedding.
-/

theorem pyIndex_lt {len : Nat} {i : Int} {j : Nat} (h : pyIndex len i = some j) :
    j < len := by
  unfold pyIndex at h
  split_ifs at h with h1 h2
  · obtain ⟨h1a, h1b⟩ := h1
    injection h with h
    omega
  · obtain ⟨h2a, h2b⟩ := h2
    injection h with h
    omega

theorem pyIndex_nonneg {len : Nat} {i : Int} (h1 : 0 ≤ i) (h2 : i < (len : Int)) :
    pyIndex len i = some i.toNat := by
  unfold pyIndex
  rw [if_pos ⟨h1, h2⟩]

theorem pyIndex_neg {len : Nat} {i : Int} (h1 : -(len : Int) ≤ i) (h2 : i < 0) :
    pyIndex len i = some ((len : Int) + i).toNat := by
  unfold pyIndex
  rw [if_neg (by omega), if_pos ⟨h1, h2⟩]

theorem pyIndex_out {len : Nat} {i : Int} (h : (len : Int) ≤ i ∨ i < -(len : Int)) :
    pyIndex len i = none := by
  unfold pyIndex
  rw [if_neg (by omega), if_neg (by omega)]

theorem pyIndex_total {len : Nat} {i : Int} (h1 : -(len : Int) ≤ i) (h2 : i < (len : Int)) :
    ∃ j, pyIndex len i = some j ∧ j < len := by
  by_cases h : 0 ≤ i
  · exact ⟨i.toNat, pyIndex_nonneg h h2, by omega⟩
  · exact ⟨((len : Int) + i).toNat, pyIndex_neg h1 (by omega), by omega⟩

theorem processIntr_some {acc : List String} {intr : Interrupt} {j : Nat}
    (h : pyIndex acc.length intr.value = some j) :
    processIntr acc intr =
      if acc.getD j "" = "" then Except.ok (acc.set j intr.name)
      else if acc.getD j "" = intr.name then Except.ok acc
      else Except.error PyError.assertionError := by
  unfold processIntr pyGet pySet
  rw [h]
  by_cases hc : acc.getD j "" = ""
  · simp [hc]
  · by_cases hn : acc.getD j "" = intr.name <;> simp [hc, hn]

theorem processIntr_out {acc : List String} {intr : Interrupt}
    (h : pyIndex acc.length intr.value = none) :
    processIntr acc intr = Except.error PyError.indexError := by
  unfold processIntr pyGet
  rw [h]

theorem getD_set_self {l : List String} {j : Nat} (v : String) (h : j < l.length) :
    (l.set j v).getD j "" = v := by
  simp [List.getD_eq_getElem?_getD, List.getElem?_set, h]

theorem getD_set_ne {l : List String} {k j : Nat} (v : String) (h : k ≠ j) :
    (l.set k v).getD j "" = l.getD j "" := by
  simp [List.getD_eq_getElem?_getD, List.getElem?_set_ne h]

theorem processIntr_length {acc acc' : List String} {intr : Interrupt}
    (h : processIntr acc intr = Except.ok acc') : acc'.length = acc.length := by
  cases hp : pyIndex acc.length intr.value with
  | none =>
    rw [processIntr_out hp] at h
    exact absurd h (by simp)
  | some j =>
    rw [processIntr_some hp] at h
    split_ifs at h with h1 h2
    · injection h with h
      rw [← h, List.length_set]
    · injection h with h
      rw [← h]

theorem processIntr_preserves {acc acc' : List String} {intr : Interrupt} {j : Nat}
    (h : processIntr acc intr = Except.ok acc') (hne : acc.getD j "" ≠ "") :
    acc'.getD j "" = acc.getD j "" := by
  cases hp : pyIndex acc.length intr.value with
  | none =>
    rw [processIntr_out hp] at h
    exact absurd h (by simp)
  | some k =>
    rw [processIntr_some hp] at h
    split_ifs at h with h1 h2
    · injection h with h
      rw [← h]
      rcases eq_or_ne k j with rfl | hkj
      · exact absurd h1 hne
      · exact getD_set_ne _ hkj
    · injection h with h
      rw [← h]

theorem foldlM_ok_length {entries : List Interrupt} {acc out : List String}
    (h : entries.foldlM processIntr acc = Except.ok out) : out.length = acc.length := by
  induction entries generalizing acc with
  | nil =>
    simp only [List.foldlM_nil] at h
    injection h with h
    rw [h]
  | cons a t ih =>
    rw [List.foldlM_cons] at h
    cases hp : processIntr acc a with
    | error e =>
      rw [hp] at h
      exact absurd h (by simp [Bind.bind, Except.bind])
    | ok acc1 =>
      rw [hp] at h
      exact (ih h).trans (processIntr_length hp)

theorem foldlM_ok_preserves {entries : List Interrupt} {acc out : List String} {j : Nat}
    (h : entries.foldlM processIntr acc = Except.ok out)
    (hne : acc.getD j "" ≠ "") : out.getD j "" = acc.getD j "" := by
  induction entries generalizing acc with
  | nil =>
    simp only [List.foldlM_nil] at h
    injection h with h
    rw [h]
  | cons a t ih =>
    rw [List.foldlM_cons] at h
    cases hp : processIntr acc a with
    | error e =>
      rw [hp] at h
      exact absurd h (by simp [Bind.bind, Except.bind])
    | ok acc1 =>
      rw [hp] at h
      have hstep := processIntr_preserves hp hne
      exact (ih h (by rw [hstep]; exact hne)).trans hstep

theorem foldlM_no_indexError {entries : List Interrupt} {acc : List String}
    (hlen : acc.length = 32)
    (hr : ∀ i ∈ entries, -32 ≤ i.value ∧ i.value < 32) :
    entries.foldlM processIntr acc ≠ Except.error PyError.indexError := by
  induction entries generalizing acc with
  | nil => exact fun hcontra => Except.noConfusion hcontra
  | cons a t ih =>
    rw [List.foldlM_cons]
    obtain ⟨ha1, ha2⟩ := hr a (List.mem_cons_self a t)
    obtain ⟨k, hk, hklt⟩ := @pyIndex_total 32 a.value (by omega) (by omega)
    have hk' : pyIndex acc.length a.value = some k := by rw [hlen]; exact hk
    have hr' : ∀ i ∈ t, -32 ≤ i.value ∧ i.value < 32 :=
      fun i hi => hr i (List.mem_cons_of_mem a hi)
    rw [processIntr_some hk']
    split_ifs with h1 h2
    · exact ih (by rw [List.length_set]; exact hlen) hr'
    · exact ih hlen hr'
    · intro hcontra
      exact PyError.noConfusion (Except.error.inj hcontra)

theorem foldlM_error_assertion {entries : List Interrupt} {acc : List String} {e : PyError}
    (hlen : acc.length = 32)
    (hr : ∀ i ∈ entries, -32 ≤ i.value ∧ i.value < 32)
    (h : entries.foldlM processIntr acc = Except.error e) : e = PyError.assertionError := by
  cases e with
  | assertionError => rfl
  | indexError => exact absurd h (foldlM_no_indexError hlen hr)

theorem foldl_peripherals (ps : List Peripheral) (acc : List String) :
    ps.foldlM (fun acc p => p.interrupts.foldlM processIntr acc) acc =
      (ps.flatMap Peripheral.interrupts).foldlM processIntr acc := by
  induction ps generalizing acc with
  | nil => rfl
  | cons p t ih =>
    rw [List.foldlM_cons, List.flatMap_cons, List.foldlM_append]
    cases hp : p.interrupts.foldlM processIntr acc with
    | error e => rfl
    | ok acc1 => exact ih acc1

theorem get_eq_foldl (device : Device) :
    get_peripheral_interrupts device =
      (allEntries device).foldlM processIntr (List.replicate 32 "") :=
  foldl_peripherals device.peripherals (List.replicate 32 "")

theorem conflict_tail {l2 l3 : List Interrupt} {b : Interrupt} {acc : List String}
    {j : Nat} {v : String}
    (hlen : acc.length = 32)
    (hr2 : ∀ i ∈ l2, -32 ≤ i.value ∧ i.value < 32)
    (hjb : pyIndex 32 b.value = some j)
    (hvne : v ≠ "") (hvb : v ≠ b.name)
    (hslot : acc.getD j "" = v) :
    (l2 ++ b :: l3).foldlM processIntr acc = Except.error PyError.assertionError := by
  rw [List.foldlM_append]
  cases h2 : l2.foldlM processIntr acc with
  | error e =>
    rw [foldlM_error_assertion hlen hr2 h2]
    rfl
  | ok acc3 =>
    have hlen3 : acc3.length = 32 := (foldlM_ok_length h2).trans hlen
    have hne : acc.getD j "" ≠ "" := by rw [hslot]; exact hvne
    have hslot3 : acc3.getD j "" = v := (foldlM_ok_preserves h2 hne).trans hslot
    show (b :: l3).foldlM processIntr acc3 = _
    rw [List.foldlM_cons]
    have hpb : pyIndex acc3.length b.value = some j := by rw [hlen3]; exact hjb
    rw [processIntr_some hpb, if_neg (by rw [hslot3]; exact hvne),
      if_neg (by rw [hslot3]; exact hvb)]
    rfl

theorem dump_as_c_macro_lines_length (name : String) (lines : List String) (indent : Nat) :
    (dump_as_c_macro_lines name lines indent).length = lines.length + 1 := by
  simp [dump_as_c_macro_lines]

theorem dump_as_c_macro_lines_getD (name : String) (lines : List String) (indent : Nat)
    (i : Nat) (hi : i < lines.length) :
    (dump_as_c_macro_lines name lines indent).getD (i + 1) "" =
      if i < lines.length - 1 then tabs indent ++ lines.getD i "" ++ " \\"
      else tabs indent ++ lines.getD i "" := by
  unfold dump_as_c_macro_lines
  rw [List.getD_cons_succ, List.getD_eq_getElem?_getD, List.getElem?_map,
    List.getElem?_enum, List.getElem?_eq_getElem hi]
  rw [List.getD_eq_getElem lines "" hi]
  rfl

theorem getD_map_vectorLine (l : List String) (j : Nat) (hj : j < l.length) :
    (vectorLines l).getD j "" = vectorLine (l.getD j "") := by
  unfold vectorLines
  rw [List.getD_eq_getElem?_getD, List.getElem?_map, List.getElem?_eq_getElem hj,
    List.getD_eq_getElem l "" hj]
  rfl

theorem vectorLine_comma (name : String) :
    ∃ e, vectorLine name = e ++ "," ∨ vectorLine name = e ++ ", /* Reserved */" := by
  by_cases h : name = ""
  · exact ⟨"0", Or.inr (by rw [vectorLine, if_pos h]; rfl)⟩
  · refine ⟨name ++ "_Handler", Or.inl ?_⟩
    rw [vectorLine, if_neg h, String.append_assoc]
    rfl

theorem handlerLines_eq_filter (interrupts : List String) :
    handlerLines interrupts =
      (interrupts.filter (fun n => n != "")).map aliasLine := by
  induction interrupts with
  | nil => rfl
  | cons a t ih =>
    by_cases ha : a = ""
    · simp [handlerLines, List.filterMap_cons, List.filter_cons, ha] at ih ⊢
      exact ih
    · simp [handlerLines, List.filterMap_cons, List.filter_cons, ha] at ih ⊢
      exact ih

/-
Claim theorems.
-/

/-- C1: the interrupt table builder processes every interrupt entry of
every peripheral in order (it folds the concatenated entry list); for
each entry, when the slot for the entry's number is already filled
(non-empty) it asserts that the existing name equals the entry's name,
failing with an assertion error when they differ, and otherwise it fills
the slot with the entry's name; consequently a filled slot keeps its
first name through any successful rest of the fold. -/
theorem builder_fills_first_name_and_asserts :
    (∀ device : Device,
        get_peripheral_interrupts device =
          (allEntries device).foldlM processIntr (List.replicate 32 "")) ∧
    (∀ (acc : List String) (intr : Interrupt) (j : Nat),
        pyIndex acc.length intr.value = some j →
        processIntr acc intr =
          (if acc.getD j "" ≠ "" then
            (if acc.getD j "" = intr.name then Except.ok acc
             else Except.error PyError.assertionError)
           else Except.ok (acc.set j intr.name))) ∧
    (∀ (entries : List Interrupt) (acc out : List String) (j : Nat),
        entries.foldlM processIntr acc = Except.ok out →
        acc.getD j "" ≠ "" → out.getD j "" = acc.getD j "") := by
  refine ⟨get_eq_foldl, ?_, fun entries acc out j h hne => foldlM_ok_preserves h hne⟩
  intro acc intr j h
  rw [processIntr_some h]
  by_cases hc : acc.getD j "" = "" <;> simp [hc]

/-- Witness for C1 at concrete inputs: a filled slot with a different
name trips the assertion, an empty slot is filled. -/
theorem builder_fills_first_name_and_asserts_witness :
    processIntr ["A"] ⟨0, "B"⟩ = Except.error PyError.assertionError ∧
    processIntr ["", "C"] ⟨0, "B"⟩ = Except.ok ["B", "C"] := by
  constructor
  · rw [builder_fills_first_name_and_asserts.2.1 ["A"] ⟨0, "B"⟩ 0 (by decide)]
    rfl
  · rw [builder_fills_first_name_and_asserts.2.1 ["", "C"] ⟨0, "B"⟩ 0 (by decide)]
    rfl

/-- C2: when two entries of the device claim the same interrupt number
with different non-empty names (and all numbers are in range 0–31, so
indexing itself cannot fail), `get_peripheral_interrupts` returns an
assertion error, and `main` therefore fails before producing the output
pair — no output path or lines at all. -/
theorem conflict_fails_before_output (device : Device)
    (l1 l2 l3 : List Interrupt) (a b : Interrupt)
    (hsplit : allEntries device = l1 ++ a :: (l2 ++ b :: l3))
    (hrange : ∀ i ∈ allEntries device, 0 ≤ i.value ∧ i.value < 32)
    (hv : a.value = b.value) (hn : a.name ≠ b.name)
    (ha : a.name ≠ "") (_hb : b.name ≠ "") :
    get_peripheral_interrupts device = Except.error PyError.assertionError ∧
    main device = Except.error PyError.assertionError := by
  have hrange' : ∀ i ∈ allEntries device, -32 ≤ i.value ∧ i.value < 32 :=
    fun i hi => ⟨by have := (hrange i hi).1; omega, (hrange i hi).2⟩
  suffices hg : get_peripheral_interrupts device = Except.error PyError.assertionError by
    refine ⟨hg, ?_⟩
    unfold main
    rw [hg]
  have hmem_a : a ∈ allEntries device := by
    rw [hsplit]
    exact List.mem_append_right _ (List.mem_cons_self _ _)
  obtain ⟨ha1, ha2⟩ := hrange a hmem_a
  obtain ⟨j, hja, hjlt⟩ := @pyIndex_total 32 a.value (by omega) (by omega)
  have hjb : pyIndex 32 b.value = some j := by rw [← hv]; exact hja
  rw [get_eq_foldl, hsplit, List.foldlM_append]
  have hr1 : ∀ i ∈ l1, -32 ≤ i.value ∧ i.value < 32 :=
    fun i hi => hrange' i (by rw [hsplit]; exact List.mem_append_left _ hi)
  have hr2 : ∀ i ∈ l2, -32 ≤ i.value ∧ i.value < 32 :=
    fun i hi => hrange' i (by
      rw [hsplit]
      exact List.mem_append_right _ (List.mem_cons_of_mem a (List.mem_append_left _ hi)))
  cases h1 : l1.foldlM processIntr (List.replicate 32 "") with
  | error e =>
    rw [foldlM_error_assertion (by simp) hr1 h1]
    rfl
  | ok acc1 =>
    have hlen1 : acc1.length = 32 := (foldlM_ok_length h1).trans (by simp)
    show (a :: (l2 ++ b :: l3)).foldlM processIntr acc1 = _
    rw [List.foldlM_cons]
    have hpa : pyIndex acc1.length a.value = some j := by rw [hlen1]; exact hja
    rw [processIntr_some hpa]
    by_cases hc1 : acc1.getD j "" = ""
    · rw [if_pos hc1]
      show (l2 ++ b :: l3).foldlM processIntr (acc1.set j a.name) = _
      exact conflict_tail (by rw [List.length_set]; exact hlen1) hr2 hjb ha hn
        (getD_set_self _ (by rw [hlen1]; exact hjlt))
    · rw [if_neg hc1]
      by_cases hc2 : acc1.getD j "" = a.name
      · rw [if_pos hc2]
        show (l2 ++ b :: l3).foldlM processIntr acc1 = _
        exact conflict_tail hlen1 hr2 hjb ha hn hc2
      · rw [if_neg hc2]
        rfl

/-- Witness for C2: the concrete device whose two peripherals claim
interrupt 0 as "A" and "B". -/
theorem conflict_fails_before_output_witness :
    get_peripheral_interrupts conflictDevice = Except.error PyError.assertionError ∧
    main conflictDevice = Except.error PyError.assertionError :=
  conflict_fails_before_output conflictDevice [] [] [] ⟨0, "A"⟩ ⟨0, "B"⟩
    rfl (by decide) rfl (by decide) (by decide) (by decide)

/-- C3: for a 32-slot table the vector-table `lines` list has exactly 32
entries, one per slot in slot order; every entry is comma-terminated (the
initializer is followed by `,`, with at most the reserved-slot comment
after it); and in the emitted macro each of the 32 body lines carries the
line-continuation backslash except the last. -/
theorem vector_macro_shape (interrupts : List String) (h : interrupts.length = 32) :
    (vectorLines interrupts).length = 32 ∧
    (∀ j : Nat, j < 32 →
        (vectorLines interrupts).getD j "" = vectorLine (interrupts.getD j "")) ∧
    (∀ line ∈ vectorLines interrupts,
        ∃ e, line = e ++ "," ∨ line = e ++ ", /* Reserved */") ∧
    (dump_as_c_macro_lines "PERIPHERAL_INTERRUPT_VECTORS" (vectorLines interrupts) 1).length = 33 ∧
    (∀ i : Nat, i < 32 →
        (dump_as_c_macro_lines "PERIPHERAL_INTERRUPT_VECTORS" (vectorLines interrupts) 1).getD (i + 1) "" =
          if i < 31 then tabs 1 ++ (vectorLines interrupts).getD i "" ++ " \\"
          else tabs 1 ++ (vectorLines interrupts).getD i "") := by
  have hlenv : (vectorLines interrupts).length = 32 := by
    rw [vectorLines, List.length_map, h]
  refine ⟨hlenv, ?_, ?_, ?_, ?_⟩
  · intro j hj
    exact getD_map_vectorLine interrupts j (by rw [h]; exact hj)
  · intro line hline
    obtain ⟨name, _, rfl⟩ := List.mem_map.mp hline
    exact vectorLine_comma name
  · rw [dump_as_c_macro_lines_length, hlenv]
  · intro i hi
    rw [dump_as_c_macro_lines_getD _ _ _ _ (by rw [hlenv]; exact hi), hlenv]

/-- Witness for C3 at the scenario table. -/
theorem vector_macro_shape_witness :
    (vectorLines demoTable).length = 32 ∧
    (dump_as_c_macro_lines "PERIPHERAL_INTERRUPT_VECTORS" (vectorLines demoTable) 1).length = 33 :=
  ⟨(vector_macro_shape demoTable rfl).1, (vector_macro_shape demoTable rfl).2.2.2.1⟩

/-- C4: in the emitted vector-table macro, the body line of a slot with
no declared name is the literal `0, /* Reserved */` and the body line of
a slot with declared name N is `N_Handler,`, each indented by one tab and
followed by the continuation backslash except on the last line. -/
theorem vector_macro_line_content (interrupts : List String) (h : interrupts.length = 32)
    (j : Nat) (hj : j < 32) :
    (vectorLines interrupts).getD j "" =
      (if interrupts.getD j "" = "" then "0, /* Reserved */"
       else interrupts.getD j "" ++ "_Handler,") ∧
    (dump_as_c_macro_lines "PERIPHERAL_INTERRUPT_VECTORS" (vectorLines interrupts) 1).getD (j + 1) "" =
      (if j < 31 then tabs 1 ++ (vectorLines interrupts).getD j "" ++ " \\"
       else tabs 1 ++ (vectorLines interrupts).getD j "") := by
  have hlenv : (vectorLines interrupts).length = 32 := by
    rw [vectorLines, List.length_map, h]
  constructor
  · rw [getD_map_vectorLine interrupts j (by rw [h]; exact hj)]
    rfl
  · rw [dump_as_c_macro_lines_getD _ _ _ _ (by rw [hlenv]; exact hj), hlenv]

/-- Witness for C4 at the scenario table, last slot (empty, reserved
marker, no trailing backslash). -/
theorem vector_macro_line_content_witness :
    (vectorLines demoTable).getD 31 "" =
      (if demoTable.getD 31 "" = "" then "0, /* Reserved */"
       else demoTable.getD 31 "" ++ "_Handler,") ∧
    (dump_as_c_macro_lines "PERIPHERAL_INTERRUPT_VECTORS" (vectorLines demoTable) 1).getD 32 "" =
      (if 31 < 31 then tabs 1 ++ (vectorLines demoTable).getD 31 "" ++ " \\"
       else tabs 1 ++ (vectorLines demoTable).getD 31 "") :=
  vector_macro_line_content demoTable rfl 31 (by decide)

/-- C5: the handlers `lines` list contains exactly the weak-alias line of
each non-empty slot, in slot order — nothing for empty slots — so its
length is the number of non-empty slots. -/
theorem handler_macro_one_line_per_filled_slot (interrupts : List String) :
    handlerLines interrupts = (interrupts.filter (fun n => n != "")).map aliasLine ∧
    (handlerLines interrupts).length = (interrupts.filter (fun n => n != "")).length := by
  refine ⟨handlerLines_eq_filter interrupts, ?_⟩
  rw [handlerLines_eq_filter interrupts, List.length_map]

/-- C6 counterexample: the emitted weak-alias line is not the claimed
text without whitespace after `__attribute__` — the script emits a space
before the double parenthesis. -/
theorem aliasLine_no_space_is_wrong :
    aliasLine "POWER_CLOCK" ≠
      "void POWER_CLOCK_Handler(void) __attribute__((weak, alias(\"Dummy_Handler\")));" := by
  decide

/-- C6 (amended): the weak-alias line emitted for a non-empty slot with
name N is exactly `void N_Handler(void) __attribute__ ((weak,
alias("Dummy_Handler")));`, with a single space between `__attribute__`
and the opening parentheses. -/
theorem aliasLine_exact_text (name : String) :
    aliasLine name =
      "void " ++ (name ++ "_Handler(void) __attribute__ ((weak, alias(\"Dummy_Handler\")));") := by
  unfold aliasLine
  rw [String.append_assoc, String.append_assoc]
  rfl

/-- C7: the scenario device (interrupts 0 ↦ POWER_CLOCK, 1 ↦ RADIO,
30 slots undeclared) produces a vector table of `POWER_CLOCK_Handler,`,
`RADIO_Handler,` and 30 reserved markers, and exactly the two weak-alias
declarations for POWER_CLOCK and RADIO. -/
theorem demo_scenario_output :
    get_peripheral_interrupts demoDevice = Except.ok demoTable ∧
    vectorLines demoTable =
      "POWER_CLOCK_Handler," :: "RADIO_Handler," ::
        List.replicate 30 "0, /* Reserved */" ∧
    handlerLines demoTable =
      ["void POWER_CLOCK_Handler(void) __attribute__ ((weak, alias(\"Dummy_Handler\")));",
       "void RADIO_Handler(void) __attribute__ ((weak, alias(\"Dummy_Handler\")));"] :=
  ⟨rfl, rfl, rfl⟩

/-- C8: on a successful build, `main` writes to the fixed header path a
line list that is exactly the generated-file marker followed by the
vector-table macro block and then the handlers macro block, each starting
with its own `#define` header — and nothing else. -/
theorem output_is_marker_then_two_macros (device : Device) (table : List String)
    (h : get_peripheral_interrupts device = Except.ok table) :
    main device = Except.ok (outputPath, dump_macros table) ∧
    dump_macros table =
      commentLine ::
        (dump_as_c_macro_lines "PERIPHERAL_INTERRUPT_VECTORS" (vectorLines table) 1 ++
          dump_as_c_macro_lines "PERIPHERAL_INTERRUPT_HANDLERS" (handlerLines table) 0) ∧
    (dump_macros table).getD 0 "" = "/* Automatically generated by nRF51_codegen.py */" ∧
    (dump_as_c_macro_lines "PERIPHERAL_INTERRUPT_VECTORS" (vectorLines table) 1).getD 0 "" =
      "#define PERIPHERAL_INTERRUPT_VECTORS \\" ∧
    (dump_as_c_macro_lines "PERIPHERAL_INTERRUPT_HANDLERS" (handlerLines table) 0).getD 0 "" =
      "#define PERIPHERAL_INTERRUPT_HANDLERS \\" := by
  refine ⟨?_, rfl, rfl, rfl, rfl⟩
  unfold main
  rw [h]

/-- Witness for C8 at the scenario device. -/
theorem output_is_marker_then_two_macros_witness :
    main demoDevice = Except.ok (outputPath, dump_macros demoTable) :=
  (output_is_marker_then_two_macros demoDevice demoTable rfl).1

/-- C9 counterexample: the builder is total on a device whose only
interrupt number is `-1`, which is not in 0–31; instead of failing it
silently fills slot 31. -/
theorem builder_accepts_negative_index :
    get_peripheral_interrupts negDevice = Except.ok (List.replicate 31 "" ++ ["X"]) := by
  rfl

/-- C9 (amended): the builder indexes the 32-slot list unguarded with
Python semantics: an entry with number ≥ 32 or < −32 raises `IndexError`
when processed; an entry with number in −32..−1 silently indexes from the
end (slot `32 + number`, so −1 fills slot 31) instead of failing; and the
builder never raises `IndexError` when every interrupt number lies in
−32..31. -/
theorem builder_indexing_unguarded :
    (∀ (acc : List String) (intr : Interrupt), acc.length = 32 →
        32 ≤ intr.value ∨ intr.value < -32 →
        processIntr acc intr = Except.error PyError.indexError) ∧
    (∀ (acc : List String) (intr : Interrupt), acc.length = 32 →
        -32 ≤ intr.value → intr.value < 0 →
        acc.getD ((32 : Int) + intr.value).toNat "" = "" →
        processIntr acc intr = Except.ok (acc.set ((32 : Int) + intr.value).toNat intr.name)) ∧
    (∀ device : Device,
        (∀ i ∈ allEntries device, -32 ≤ i.value ∧ i.value < 32) →
        get_peripheral_interrupts device ≠ Except.error PyError.indexError) := by
  refine ⟨?_, ?_, ?_⟩
  · intro acc intr hlen hout
    exact processIntr_out (by rw [hlen]; exact pyIndex_out (by omega))
  · intro acc intr hlen h1 h2 hslot
    have hpy : pyIndex acc.length intr.value = some ((32 : Int) + intr.value).toNat := by
      rw [hlen]
      exact pyIndex_neg (by omega) h2
    rw [processIntr_some hpy, if_pos hslot]
  · intro device hr
    rw [get_eq_foldl]
    exact foldlM_no_indexError (by simp) hr

/-- Witness for C9 at concrete inputs: number 32 raises, number −1 fills
slot 31, and the all-in-range device never sees an `IndexError`. -/
theorem builder_indexing_unguarded_witness :
    processIntr (List.replicate 32 "") ⟨32, "X"⟩ = Except.error PyError.indexError ∧
    processIntr (List.replicate 32 "") ⟨-1, "X"⟩ =
      Except.ok ((List.replicate 32 "").set 31 "X") ∧
    get_peripheral_interrupts negDevice ≠ Except.error PyError.indexError := by
  refine ⟨?_, ?_, ?_⟩
  · exact builder_indexing_unguarded.1 (List.replicate 32 "") ⟨32, "X"⟩ (by decide) (by decide)
  · exact builder_indexing_unguarded.2.1 (List.replicate 32 "") ⟨-1, "X"⟩ (by decide)
      (by decide) (by decide) (by decide)
  · exact builder_indexing_unguarded.2.2 negDevice (by decide)

/-- C10: an interrupt entry whose name is the empty string never fills a
slot (writing the empty string leaves the slot empty) and never triggers
the conflict check when the slot is empty; a later non-empty name then
silently fills the slot; but an empty-string name arriving at a slot
already holding a non-empty name trips the equality assertion and
aborts. -/
theorem empty_name_entry_dynamics :
    (∀ (acc : List String) (intr : Interrupt) (j : Nat),
        pyIndex acc.length intr.value = some j → intr.name = "" → acc.getD j "" = "" →
        processIntr acc intr = Except.ok (acc.set j "") ∧ (acc.set j "").getD j "" = "") ∧
    (∀ (acc : List String) (intr : Interrupt) (j : Nat),
        pyIndex acc.length intr.value = some j → acc.getD j "" = "" → intr.name ≠ "" →
        processIntr acc intr = Except.ok (acc.set j intr.name) ∧
          (acc.set j intr.name).getD j "" = intr.name) ∧
    (∀ (acc : List String) (intr : Interrupt) (j : Nat),
        pyIndex acc.length intr.value = some j → acc.getD j "" ≠ "" → intr.name = "" →
        processIntr acc intr = Except.error PyError.assertionError) := by
  refine ⟨?_, ?_, ?_⟩
  · intro acc intr j hpy hname hslot
    refine ⟨?_, getD_set_self "" (pyIndex_lt hpy)⟩
    rw [processIntr_some hpy, if_pos hslot, hname]
  · intro acc intr j hpy hslot hname
    exact ⟨by rw [processIntr_some hpy, if_pos hslot],
      getD_set_self intr.name (pyIndex_lt hpy)⟩
  · intro acc intr j hpy hslot hname
    rw [processIntr_some hpy, if_neg hslot, if_neg (by rw [hname]; exact hslot)]

/-- Witness for C10 at concrete inputs: empty name on an empty slot is a
no-op fill, a non-empty name then fills, and empty name after a non-empty
name aborts. -/
theorem empty_name_entry_dynamics_witness :
    processIntr (List.replicate 32 "") ⟨0, ""⟩ =
      Except.ok ((List.replicate 32 "").set 0 "") ∧
    processIntr (List.replicate 32 "") ⟨0, "A"⟩ =
      Except.ok ((List.replicate 32 "").set 0 "A") ∧
    processIntr ("A" :: List.replicate 31 "") ⟨0, ""⟩ =
      Except.error PyError.assertionError := by
  refine ⟨?_, ?_, ?_⟩
  · exact (empty_name_entry_dynamics.1 (List.replicate 32 "") ⟨0, ""⟩ 0
      (by decide) rfl (by decide)).1
  · exact (empty_name_entry_dynamics.2.1 (List.replicate 32 "") ⟨0, "A"⟩ 0
      (by decide) (by decide) (by decide)).1
  · exact empty_name_entry_dynamics.2.2 ("A" :: List.replicate 31 "") ⟨0, ""⟩ 0
      (by decide) (by decide) rfl

end NRF51Codegen
